import Mathlib

/-!
Verification development for the pendulum simulation core
(`server/physics.py` and `server/sim_session.py`).

The embedding models Python floats as real numbers, state vectors as
`List ℝ`, and the parameter dictionary as an association list from
`String` to `ℝ`.  Fallible Python operations (dictionary indexing
`params["k"]`, sequence unpacking `a, b = xs[:2]`, list indexing
`xs[i]`) are modelled in the `Except String` monad, so that a raised
exception corresponds to an `Except.error` value that propagates unless
explicitly caught, exactly as in the source.
-/

noncomputable section

/-- Parameter dictionary: an association list mirroring the Python
`Dict[str, float]`. -/
abbrev Params := List (String × ℝ)

/-- Dictionary indexing `params[k]`: the value, or a `KeyError`. -/
def pget (p : Params) (k : String) : Except String ℝ :=
  match List.lookup k p with
  | some v => Except.ok v
  | none => Except.error ("KeyError: " ++ k)

/-- Dictionary access with default, `params.get(k, d)`. -/
def pgetD (p : Params) (k : String) (d : ℝ) : ℝ :=
  (List.lookup k p).getD d

/-- Python `str.lower`, modelled characterwise over the string's
characters (ASCII lowering, which is what the mode strings need). -/
def lowerString (s : String) : String :=
  ⟨s.data.map Char.toLower⟩

/-- Python `str.startswith`. -/
def startsWithL (s pre : String) : Bool :=
  List.isPrefixOf pre.data s.data

/-- Python `math.radians`: convert degrees to radians. -/
def radians (x : ℝ) : ℝ :=
  x * Real.pi / 180

/-- List indexing `l[i]`: the element, or an `IndexError`. -/
def getE (l : List ℝ) (i : ℕ) : Except String ℝ :=
  match l.get? i with
  | some x => Except.ok x
  | none => Except.error "IndexError"

/-- `single_pendulum_derivatives` from `physics.py`: derivatives
`[dtheta, domega]` of a simple pendulum with linear damping. -/
def single_pendulum_derivatives (state : List ℝ) (params : Params) :
    Except String (List ℝ) :=
  match state with
  | theta :: omega :: _ =>
    match pget params "g" with
    | Except.error msg => Except.error msg
    | Except.ok g =>
      match pget params "l1" with
      | Except.error msg => Except.error msg
      | Except.ok l =>
        let damping := pgetD params "damping" 0.0
        let dtheta := omega
        let domega := -(g / max 1e-9 l) * Real.sin theta - damping * omega
        Except.ok [dtheta, domega]
  | _ => Except.error "ValueError"

/-- `double_pendulum_derivatives` from `physics.py`: derivatives
`[dth1, dw1, dth2, dw2]` of a double pendulum with linear damping and a
clamped denominator. -/
def double_pendulum_derivatives (state : List ℝ) (params : Params) :
    Except String (List ℝ) :=
  match state with
  | th1 :: w1 :: th2 :: w2 :: _ =>
    match pget params "m1" with
    | Except.error msg => Except.error msg
    | Except.ok m1 =>
      match pget params "m2" with
      | Except.error msg => Except.error msg
      | Except.ok m2 =>
        match pget params "l1" with
        | Except.error msg => Except.error msg
        | Except.ok l1 =>
          match pget params "l2" with
          | Except.error msg => Except.error msg
          | Except.ok l2 =>
            match pget params "g" with
            | Except.error msg => Except.error msg
            | Except.ok g =>
              let damping := pgetD params "damping" 0.0
              let delta := th1 - th2
              let sin_delta := Real.sin delta
              let cos_delta := Real.cos delta
              let denom0 := 2.0 * m1 + m2 - m2 * Real.cos (2.0 * delta)
              let denom := if |denom0| < 1e-9 then 1e-9 else denom0
              let num1 := -g * (2.0 * m1 + m2) * Real.sin th1
                - m2 * g * Real.sin (th1 - 2.0 * th2)
                - 2.0 * sin_delta * m2 * (w2 * w2 * l2 + w1 * w1 * l1 * cos_delta)
              let a1 := num1 / (l1 * denom) - damping * w1
              let num2 := 2.0 * sin_delta *
                (w1 * w1 * l1 * (m1 + m2) + g * (m1 + m2) * Real.cos th1
                  + w2 * w2 * l2 * m2 * cos_delta)
              let a2 := num2 / (l2 * denom) - damping * w2
              Except.ok [w1, a1, w2, a2]
  | _ => Except.error "ValueError"

/-- The list comprehension `[a[i] + f(b[i]) for i in range(len(a))]`:
combines two lists elementwise over the indices of the first one, with
an `IndexError` when the second list is shorter. -/
def combineE (a b : List ℝ) (f : ℝ → ℝ → ℝ) : Except String (List ℝ) :=
  match a, b with
  | [], _ => Except.ok []
  | _ :: _, [] => Except.error "IndexError"
  | x :: xs, y :: ys =>
    match combineE xs ys f with
    | Except.error msg => Except.error msg
    | Except.ok rest => Except.ok (f x y :: rest)

/-- The final RK4 list comprehension
`[s1[i] + dt*(k1[i] + 2*k2[i] + 2*k3[i] + k4[i])/6 for i in range(len(s1))]`. -/
def rk4Combine (s k1 k2 k3 k4 : List ℝ) (dt : ℝ) : Except String (List ℝ) :=
  match s, k1, k2, k3, k4 with
  | [], _, _, _, _ => Except.ok []
  | x :: xs, a :: ka, b :: kb, c :: kc, d :: kd =>
    match rk4Combine xs ka kb kc kd dt with
    | Except.error msg => Except.error msg
    | Except.ok rest =>
      Except.ok ((x + dt * (a + 2.0 * b + 2.0 * c + d) / 6.0) :: rest)
  | _, _, _, _, _ => Except.error "IndexError"

/-- `rk4_step` from `physics.py`: one classical RK4 step for arbitrary
state dimension. -/
def rk4_step (state : List ℝ) (dt : ℝ) (params : Params)
    (deriv_func : List ℝ → Params → Except String (List ℝ)) :
    Except String (List ℝ) :=
  let s1 := state
  match deriv_func s1 params with
  | Except.error msg => Except.error msg
  | Except.ok k1 =>
    match combineE s1 k1 (fun x k => x + 0.5 * dt * k) with
    | Except.error msg => Except.error msg
    | Except.ok s2 =>
      match deriv_func s2 params with
      | Except.error msg => Except.error msg
      | Except.ok k2 =>
        match combineE s1 k2 (fun x k => x + 0.5 * dt * k) with
        | Except.error msg => Except.error msg
        | Except.ok s3 =>
          match deriv_func s3 params with
          | Except.error msg => Except.error msg
          | Except.ok k3 =>
            match combineE s1 k3 (fun x k => x + dt * k) with
            | Except.error msg => Except.error msg
            | Except.ok s4 =>
              match deriv_func s4 params with
              | Except.error msg => Except.error msg
              | Except.ok k4 => rk4Combine s1 k1 k2 k3 k4 dt

/-- `symplectic_euler_step` from `physics.py`: semi-implicit Euler step.
Angular velocities are updated first from the accelerations of the
derivative evaluated at the input state, then angles are updated using
the already-updated velocities.  States that are not of length exactly
2 or 4 fall back to an explicit Euler step. -/
def symplectic_euler_step (state : List ℝ) (dt : ℝ) (params : Params)
    (deriv_func : List ℝ → Params → Except String (List ℝ)) :
    Except String (List ℝ) :=
  match state with
  | [th1, w1, th2, w2] =>
    match deriv_func [th1, w1, th2, w2] params with
    | Except.error msg => Except.error msg
    | Except.ok d =>
      match getE d 1 with
      | Except.error msg => Except.error msg
      | Except.ok a1 =>
        match getE d 3 with
        | Except.error msg => Except.error msg
        | Except.ok a2 =>
          let w1n := w1 + dt * a1
          let w2n := w2 + dt * a2
          let th1n := th1 + dt * w1n
          let th2n := th2 + dt * w2n
          Except.ok [th1n, w1n, th2n, w2n]
  | [th, w] =>
    match deriv_func [th, w] params with
    | Except.error msg => Except.error msg
    | Except.ok d =>
      match getE d 1 with
      | Except.error msg => Except.error msg
      | Except.ok a =>
        let wn := w + dt * a
        let thn := th + dt * wn
        Except.ok [thn, wn]
  | _ =>
    match deriv_func state params with
    | Except.error msg => Except.error msg
    | Except.ok d => combineE state d (fun x y => x + dt * y)

/-- The `for _ in range(n): s = f(s)` loop over a fallible step
function. -/
def stepLoop (f : List ℝ → Except String (List ℝ)) :
    ℕ → List ℝ → Except String (List ℝ)
  | 0, s => Except.ok s
  | n + 1, s =>
    match f s with
    | Except.error msg => Except.error msg
    | Except.ok s2 => stepLoop f n s2

/-- The sub-step count `max(1, int(math.ceil(abs(dt_total) / max(1e-9, dt_max))))`
computed by `rk4_integrate_substeps` (and by the symplectic branch of
`SimulationSession.step`). -/
def substep_count (dt_total dt_max : ℝ) : ℕ :=
  max 1 ⌈|dt_total| / max 1e-9 dt_max⌉₊

/-- `rk4_integrate_substeps` from `physics.py`: split `dt_total` into
equal sub-steps of size at most (roughly) `dt_max` and iterate
`rk4_step`. -/
def rk4_integrate_substeps (state : List ℝ) (dt_total dt_max : ℝ)
    (params : Params)
    (deriv_func : List ℝ → Params → Except String (List ℝ)) :
    Except String (List ℝ) :=
  let steps := substep_count dt_total dt_max
  let dt := dt_total / (steps : ℝ)
  stepLoop (fun s => rk4_step s dt params deriv_func) steps state

/-- `choose_dt_max` from `physics.py`: heuristic step-size bound from
the maximum angular-velocity magnitude. -/
def choose_dt_max (state : List ℝ) (base_dt : ℝ := 0.005)
    (max_dt : ℝ := 0.02) : ℝ :=
  let w_max :=
    if 4 ≤ state.length then max |state.getD 1 0| |state.getD 3 0|
    else if 1 < state.length then |state.getD 1 0|
    else 0.0
  if w_max ≤ 0.1 then max_dt
  else max 1e-4 (min max_dt (base_dt / (1.0 + w_max)))

/-- `total_energy` from `physics.py`: total mechanical energy
(kinetic plus potential), with the hinge at height zero. -/
def total_energy (state : List ℝ) (params : Params)
    (mode : String := "double") : Except String ℝ :=
  match pget params "g" with
  | Except.error msg => Except.error msg
  | Except.ok g =>
    if mode = "double" ∧ 4 ≤ state.length then
      match state with
      | th1 :: w1 :: th2 :: w2 :: _ =>
        match pget params "m1" with
        | Except.error msg => Except.error msg
        | Except.ok m1 =>
          match pget params "m2" with
          | Except.error msg => Except.error msg
          | Except.ok m2 =>
            match pget params "l1" with
            | Except.error msg => Except.error msg
            | Except.ok l1 =>
              match pget params "l2" with
              | Except.error msg => Except.error msg
              | Except.ok l2 =>
                let x1dot := l1 * w1 * Real.cos th1
                let y1dot := -l1 * w1 * Real.sin th1
                let x2dot := x1dot + l2 * w2 * Real.cos th2
                let y2dot := y1dot - l2 * w2 * Real.sin th2
                let KE := 0.5 * m1 * (x1dot * x1dot + y1dot * y1dot)
                  + 0.5 * m2 * (x2dot * x2dot + y2dot * y2dot)
                let y1 := -l1 * Real.cos th1
                let y2 := y1 - l2 * Real.cos th2
                let PE := m1 * g * y1 + m2 * g * y2
                Except.ok (KE + PE)
      | _ => Except.error "ValueError"
    else
      match state with
      | th :: w :: _ =>
        match pget params "m1" with
        | Except.error msg => Except.error msg
        | Except.ok m =>
          match pget params "l1" with
          | Except.error msg => Except.error msg
          | Except.ok l =>
            let xdot := l * w * Real.cos th
            let ydot := -l * w * Real.sin th
            let KE := 0.5 * m * (xdot * xdot + ydot * ydot)
            let y := -l * Real.cos th
            let PE := m * g * y
            Except.ok (KE + PE)
      | _ => Except.error "ValueError"

/-- The inner `wrap` helper of `normalize_angles`: Python computes
`a = (angle + pi) % (2*pi)` (float modulo, sign of the divisor),
followed by the defensive negative-branch fixup and the shift back by
`pi`. -/
def wrap (angle : ℝ) : ℝ :=
  let two_pi := 2.0 * Real.pi
  let x := angle + Real.pi
  let a := x - two_pi * (⌊x / two_pi⌋ : ℝ)
  let a2 := if a < 0 then a + two_pi else a
  a2 - Real.pi

/-- `normalize_angles` from `physics.py`: wrap the angular positions
(indices 0 and 2) into `[-pi, pi]`, preserving angular velocities. -/
def normalize_angles (state : List ℝ) : List ℝ :=
  let s := state
  let s1 := if 2 ≤ s.length then s.set 0 (wrap (s.getD 0 0)) else s
  let s2 := if 4 ≤ s1.length then s1.set 2 (wrap (s1.getD 2 0)) else s1
  s2

/-- `positions_from_state` from `physics.py`: Cartesian bob positions
relative to the hinge; for a state of length below four the second bob
coincides with the first. -/
def positions_from_state (state : List ℝ) (params : Params) :
    Except String ((ℝ × ℝ) × (ℝ × ℝ)) :=
  match pget params "l1" with
  | Except.error msg => Except.error msg
  | Except.ok l1 =>
    let l2 := pgetD params "l2" 0.0
    match state with
    | th1 :: _ :: th2 :: _ :: _ =>
      let x1 := l1 * Real.sin th1
      let y1 := l1 * Real.cos th1
      let x2 := x1 + l2 * Real.sin th2
      let y2 := y1 + l2 * Real.cos th2
      Except.ok ((x1, y1), (x2, y2))
    | th1 :: _ :: _ =>
      let x1 := l1 * Real.sin th1
      let y1 := l1 * Real.cos th1
      Except.ok ((x1, y1), (x1, y1))
    | _ => Except.error "ValueError"

/-- `SimulationSession` from `sim_session.py`: per-session simulation
state and parameters, with the dataclass defaults.  The private Python
fields `_energy_accum` and `_norm_counter` are named `energy_accum` and
`norm_counter`, and `_append_trail_point` is `append_trail_point`. -/
structure SimulationSession where
  mode : String := "double"
  state : List ℝ := [radians 45.0, 0.0, radians (-30.0), 0.0]
  params : Params :=
    [("m1", 1.0), ("m2", 1.0), ("l1", 1.0), ("l2", 1.0), ("g", 9.81),
      ("damping", 0.0)]
  integrator : String := "rk4"
  base_dt : ℝ := 0.004
  dt_max : ℝ := 0.015
  time_scale : ℝ := 1.0
  sim_time : ℝ := 0.0
  energy_ref : Option ℝ := none
  energy_err : ℝ := 0.0
  energy_check_interval : ℝ := 0.5
  energy_accum : ℝ := 0.0
  autoswitch : Bool := true
  energy_threshold : ℝ := 0.1
  normalize_every_n : ℕ := 1
  norm_counter : ℕ := 0
  trail_enabled : Bool := true
  trail_max_points : ℕ := 300
  trail_points : List (ℝ × ℝ) := []

namespace SimulationSession

/-- `SimulationSession._append_trail_point`: append a sample and pop the
oldest one when the capacity is exceeded. -/
def append_trail_point (s : SimulationSession) (x y : ℝ) :
    SimulationSession :=
  let pts := s.trail_points ++ [(x, y)]
  if s.trail_max_points < pts.length then { s with trail_points := pts.drop 1 }
  else { s with trail_points := pts }

/-- `SimulationSession.reset`: restore the canonical initial state for
the current mode and clear the trail and the energy tracking. -/
def reset (s : SimulationSession) : SimulationSession :=
  { s with
    state :=
      if s.mode = "double" then [radians 45.0, 0.0, radians (-30.0), 0.0]
      else [radians 45.0, 0.0]
    sim_time := 0.0
    energy_ref := none
    energy_err := 0.0
    energy_accum := 0.0
    trail_points := [] }

/-- `SimulationSession.set_mode`: normalise the mode string, truncate or
extend the state vector, switch the mode and perform a full `reset`.
The unpacking `th1, w1 = self.state[:2]` raises when the state is
shorter than two entries. -/
def set_mode (s : SimulationSession) (mode : String) :
    Except String SimulationSession :=
  let m := lowerString mode
  let new_mode :=
    if startsWithL m "single" || startsWithL m "einfach" then "single"
    else "double"
  if new_mode = s.mode then Except.ok s
  else
    match s.state with
    | th1 :: w1 :: _ =>
      let s1 :=
        if new_mode = "single" then { s with state := [th1, w1] }
        else { s with state := [th1, w1, radians (-30.0), 0.0] }
      Except.ok (SimulationSession.reset { s1 with mode := new_mode })
    | _ => Except.error "ValueError"

/-- `SimulationSession.get_positions`: the Cartesian bob positions
`(x1, y1, x2, y2)` of the current state. -/
def get_positions (s : SimulationSession) : Except String (ℝ × ℝ × ℝ × ℝ) :=
  match positions_from_state s.state s.params with
  | Except.error msg => Except.error msg
  | Except.ok ((x1, y1), (x2, y2)) => Except.ok (x1, y1, x2, y2)

/-- The integration part of `SimulationSession.step`: pick the
derivative function from the mode and advance the state with the active
integrator, sub-stepping in both branches. -/
def integrate_phase (s : SimulationSession) (dt : ℝ) :
    Except String (List ℝ) :=
  let deriv :=
    if s.mode = "double" then double_pendulum_derivatives
    else single_pendulum_derivatives
  if s.integrator = "rk4" then
    let dtmx := min s.dt_max (choose_dt_max s.state s.base_dt s.dt_max)
    rk4_integrate_substeps s.state dt dtmx s.params deriv
  else
    let dtmx := min s.dt_max
      (choose_dt_max s.state (max 0.008 (s.base_dt * 2.0)) s.dt_max)
    let steps := substep_count dt dtmx
    let small := dt / (steps : ℝ)
    stepLoop (fun st => symplectic_euler_step st small s.params deriv) steps
      s.state

/-- The `energy_mode` tag chosen at the top of `SimulationSession.step`
from the current mode. -/
def energy_mode (s : SimulationSession) : String :=
  if s.mode = "double" then "double" else "single"

/-- The `if self.energy_ref is None:` block of the monitor: capture the
energy reference on first evaluation, or `0.0` when the computation
fails. -/
def capture_ref (s : SimulationSession) : SimulationSession :=
  if s.energy_ref = none then
    match total_energy s.state s.params (energy_mode s) with
    | Except.ok e0 => { s with energy_ref := some e0 }
    | Except.error _ => { s with energy_ref := some 0.0 }
  else s

/-- The body run when the energy check fires, on the session whose
accumulator has just been zeroed: the `try`/`except` around the drift
computation followed by the integrator-selector `if`/`else`. -/
def run_check (s : SimulationSession) : Except String SimulationSession :=
  match total_energy s.state s.params (energy_mode s) with
  | Except.ok e =>
    let e0 := s.energy_ref.getD e
    let denom := max (1e-9 : ℝ) |e0|
    let s3 := { s with energy_err := |e - e0| / denom }
    if s3.autoswitch = true ∧ s3.integrator = "symplectic" ∧
        s3.energy_threshold < s3.energy_err then
      Except.ok { s3 with
        integrator := "rk4"
        base_dt := 0.004
        dt_max := 0.015
        energy_ref := some e }
    else if s3.energy_threshold * (0.5 : ℝ) < s3.energy_err then
      Except.ok { s3 with dt_max := max 0.001 (s3.dt_max * 0.85) }
    else
      let upper : ℝ := if s3.integrator = "rk4" then 0.015 else 0.03
      Except.ok { s3 with dt_max := min upper (s3.dt_max * 1.05) }
  | Except.error _ =>
    let s3 := { s with energy_err := 0.0 }
    if s3.autoswitch = true ∧ s3.integrator = "symplectic" ∧
        s3.energy_threshold < s3.energy_err then
      Except.error "UnboundLocalError"
    else if s3.energy_threshold * (0.5 : ℝ) < s3.energy_err then
      Except.ok { s3 with dt_max := max 0.001 (s3.dt_max * 0.85) }
    else
      let upper : ℝ := if s3.integrator = "rk4" then 0.015 else 0.03
      Except.ok { s3 with dt_max := min upper (s3.dt_max * 1.05) }

/-- The energy-monitoring and integrator-selection part of
`SimulationSession.step` (the body guarded by `damping == 0.0`).  The
two `total_energy` calls sit inside `try`/`except` blocks, so their
failures are caught; but when the check's `total_energy` call failed
and the autoswitch branch is still taken (only possible with a negative
`energy_threshold`), the Python code reads the never-assigned local `e`
and raises `UnboundLocalError`. -/
def monitor_phase (s : SimulationSession) (dt : ℝ) :
    Except String SimulationSession :=
  if pgetD s.params "damping" 0.0 = 0.0 then
    let s1 := capture_ref s
    let acc := s1.energy_accum + dt
    if s1.energy_check_interval ≤ acc then
      run_check { s1 with energy_accum := 0.0 }
    else Except.ok { s1 with energy_accum := acc }
  else Except.ok s

/-- The trail-update part of `SimulationSession.step`: when the trail is
enabled, append the tracked bob's position (second bob in double mode,
first bob otherwise). -/
def trail_phase (s : SimulationSession) : Except String SimulationSession :=
  if s.trail_enabled = true then
    match positions_from_state s.state s.params with
    | Except.error msg => Except.error msg
    | Except.ok ((x1, y1), (x2, y2)) =>
      if s.mode = "double" then Except.ok (s.append_trail_point x2 y2)
      else Except.ok (s.append_trail_point x1 y1)
  else Except.ok s

/-- `SimulationSession.step`: advance by `dt` seconds — integrate,
occasionally normalise angles, advance the simulated time, run the
energy monitor and integrator selector, and update the trail. -/
def step (s : SimulationSession) (dt : ℝ) : Except String SimulationSession :=
  match integrate_phase s dt with
  | Except.error msg => Except.error msg
  | Except.ok st0 =>
    let nc := s.norm_counter + 1
    let stcnt :=
      if s.normalize_every_n ≤ nc then (normalize_angles st0, 0) else (st0, nc)
    let s1 := { s with
      state := stcnt.1
      norm_counter := stcnt.2
      sim_time := s.sim_time + dt }
    match monitor_phase s1 dt with
    | Except.error msg => Except.error msg
    | Except.ok s2 => trail_phase s2

/-- Repeated `step` calls with the given sequence of time increments. -/
def stepFold (s : SimulationSession) : List ℝ → Except String SimulationSession
  | [] => Except.ok s
  | dt :: rest =>
    match SimulationSession.step s dt with
    | Except.error msg => Except.error msg
    | Except.ok s2 => stepFold s2 rest

end SimulationSession

/-- The default parameter dictionary with an adjustable damping value. -/
def paramsD (damping : ℝ) : Params :=
  [("m1", 1.0), ("m2", 1.0), ("l1", 1.0), ("l2", 1.0), ("g", 9.81),
    ("damping", damping)]

/-- A parameter dictionary missing the key `"m1"` (still sufficient for
the single-pendulum derivatives, but not for `total_energy`). -/
def paramsNoM1 : Params :=
  [("g", 9.81), ("l1", 1.0)]

/-- Session used for the damping counterexample: double mode, zero
state, damping 1, a stale energy reference, the trail disabled. -/
def sessA : SimulationSession :=
  { mode := "double"
    state := [0, 0, 0, 0]
    params := paramsD 1.0
    integrator := "rk4"
    energy_ref := some 5
    trail_enabled := false }

/-- The session `sessA` after one `step` of `0.01` seconds. -/
def sessA2 : SimulationSession :=
  { sessA with sim_time := 0.01 }

/-- Session used for the autoswitch scenario: symplectic integrator,
undamped, zero state, stale reference `1`, accumulator primed so the
next step fires the energy check, the trail disabled. -/
def sessB : SimulationSession :=
  { mode := "double"
    state := [0, 0, 0, 0]
    params := paramsD 0.0
    integrator := "symplectic"
    energy_ref := some 1
    energy_accum := 0.5
    trail_enabled := false }

/-- The session `sessB` after one `step` of `0.01` seconds: the energy
check fired, measured drift `30.43`, and the autoswitch put the session
on RK4 with the reference recaptured. -/
def sessB2 : SimulationSession :=
  { sessB with
    sim_time := 0.01
    energy_accum := 0.0
    energy_err := 3043/100
    integrator := "rk4"
    base_dt := 0.004
    dt_max := 0.015
    energy_ref := some (-2943/100) }

/-- Session used for the energy-exception scenario: single mode with a
parameter dictionary missing `"m1"`, symplectic integrator, autoswitch
on and a negative `energy_threshold`, so the failed energy check drives
the code into the branch that reads the unassigned local `e`. -/
def sessC8 : SimulationSession :=
  { mode := "single"
    state := [0, 0]
    params := paramsNoM1
    integrator := "symplectic"
    energy_ref := some 1
    energy_accum := 0.5
    energy_threshold := -1
    trail_enabled := false }

/-- The session `sessC8` with the default (nonnegative) threshold: the
failed energy check is then swallowed and the step completes. -/
def sessC8b : SimulationSession :=
  { sessC8 with energy_threshold := 0.1 }

/-- The session `sessC8b` after one `step` of `0.01` seconds: drift
recorded as zero, `dt_max` nudged up to the symplectic bound. -/
def sessC8b2 : SimulationSession :=
  { sessC8b with
    sim_time := 0.01
    energy_accum := 0.0
    energy_err := 0.0
    dt_max := 0.01575 }

/-- Session used for the trail scenario: like `sessA` (damping 1, so
the monitor is skipped) but with the trail enabled and empty. -/
def sessD : SimulationSession :=
  { mode := "double"
    state := [0, 0, 0, 0]
    params := paramsD 1.0
    integrator := "rk4" }

/-- The session `sessD` after one `step` of `0.01` seconds: one trail
point, the second bob's position `(0, 2)`. -/
def sessD2 : SimulationSession :=
  { sessD with sim_time := 0.01, trail_points := [(0, 2)] }

/-- The default session, as `SimulationSession()` constructs it. -/
def sessDefault : SimulationSession := {}

/-- Session with a full one-slot trail. -/
def sess9 : SimulationSession :=
  { trail_points := [(0, 0)], trail_max_points := 1 }

/-- Session in single mode at the zero state with default parameters. -/
def sess10 : SimulationSession :=
  { mode := "single", state := [0, 0] }

/-- Two consecutive `set_mode` calls, propagating a failure of the
first one, as a caller would perform them. -/
def set_mode_twice (s : SimulationSession) (mode1 mode2 : String) :
    Except String SimulationSession :=
  match SimulationSession.set_mode s mode1 with
  | Except.error msg => Except.error msg
  | Except.ok t => SimulationSession.set_mode t mode2

/-- Session in double mode whose first pendulum angle is `1` radian
(not the canonical initial angle). -/
def sessC1 : SimulationSession :=
  { state := [1, 0, 1/2, 0] }

/-- The session `sessC1` after `set_mode("single")` then
`set_mode("double")`: a full reset of the double-mode state. -/
def sessC1rt : SimulationSession :=
  { sessC1 with state := [radians 45.0, 0.0, radians (-30.0), 0.0] }

/-! Structural lemmas about the phases of `SimulationSession.step`. -/

lemma capture_ref_fields (s : SimulationSession) :
    (SimulationSession.capture_ref s).mode = s.mode ∧
    (SimulationSession.capture_ref s).state = s.state ∧
    (SimulationSession.capture_ref s).params = s.params ∧
    (SimulationSession.capture_ref s).trail_enabled = s.trail_enabled ∧
    (SimulationSession.capture_ref s).trail_points = s.trail_points ∧
    (SimulationSession.capture_ref s).trail_max_points = s.trail_max_points ∧
    (SimulationSession.capture_ref s).sim_time = s.sim_time ∧
    (SimulationSession.capture_ref s).norm_counter = s.norm_counter ∧
    (SimulationSession.capture_ref s).normalize_every_n = s.normalize_every_n ∧
    (SimulationSession.capture_ref s).autoswitch = s.autoswitch ∧
    (SimulationSession.capture_ref s).integrator = s.integrator ∧
    (SimulationSession.capture_ref s).energy_accum = s.energy_accum ∧
    (SimulationSession.capture_ref s).energy_check_interval =
      s.energy_check_interval := by
  unfold SimulationSession.capture_ref
  repeat' split
  all_goals simp

lemma run_check_fields {s u : SimulationSession}
    (h : SimulationSession.run_check s = Except.ok u) :
    u.mode = s.mode ∧ u.state = s.state ∧ u.params = s.params ∧
    u.trail_enabled = s.trail_enabled ∧ u.trail_points = s.trail_points ∧
    u.trail_max_points = s.trail_max_points ∧ u.sim_time = s.sim_time ∧
    u.norm_counter = s.norm_counter ∧
    u.normalize_every_n = s.normalize_every_n ∧
    u.autoswitch = s.autoswitch ∧
    (u.integrator = s.integrator ∨ u.integrator = "rk4") := by
  unfold SimulationSession.run_check at h
  split at h
  all_goals simp only [] at h
  all_goals split_ifs at h
  all_goals try cases h
  all_goals refine ⟨rfl, rfl, rfl, rfl, rfl, rfl, rfl, rfl, rfl, rfl, ?_⟩
  all_goals
    first
    | exact Or.inl rfl
    | exact Or.inr rfl

lemma monitor_phase_fields {s u : SimulationSession} {dt : ℝ}
    (h : SimulationSession.monitor_phase s dt = Except.ok u) :
    u.mode = s.mode ∧ u.state = s.state ∧ u.params = s.params ∧
    u.trail_enabled = s.trail_enabled ∧ u.trail_points = s.trail_points ∧
    u.trail_max_points = s.trail_max_points ∧ u.sim_time = s.sim_time ∧
    u.norm_counter = s.norm_counter ∧
    u.normalize_every_n = s.normalize_every_n ∧
    u.autoswitch = s.autoswitch ∧
    (u.integrator = s.integrator ∨ u.integrator = "rk4") := by
  have hc := capture_ref_fields s
  unfold SimulationSession.monitor_phase at h
  split at h
  · simp only [] at h
    split at h
    · have hr := run_check_fields h
      simp only at hr
      obtain ⟨c1, c2, c3, c4, c5, c6, c7, c8, c9, c10, c11, c12, c13⟩ := hc
      obtain ⟨r1, r2, r3, r4, r5, r6, r7, r8, r9, r10, r11⟩ := hr
      refine ⟨?_, ?_, ?_, ?_, ?_, ?_, ?_, ?_, ?_, ?_, ?_⟩ <;>
        simp_all
    · obtain ⟨c1, c2, c3, c4, c5, c6, c7, c8, c9, c10, c11, c12, c13⟩ := hc
      simp only [Except.ok.injEq] at h
      subst h
      refine ⟨?_, ?_, ?_, ?_, ?_, ?_, ?_, ?_, ?_, ?_, ?_⟩ <;> simp_all
  · simp only [Except.ok.injEq] at h
    subst h
    simp

lemma monitor_phase_damped {s : SimulationSession} {dt : ℝ}
    (hd : ¬ pgetD s.params "damping" 0.0 = 0.0) :
    SimulationSession.monitor_phase s dt = Except.ok s := by
  unfold SimulationSession.monitor_phase
  rw [if_neg hd]

lemma trail_phase_fields {s u : SimulationSession}
    (h : SimulationSession.trail_phase s = Except.ok u) :
    u.mode = s.mode ∧ u.state = s.state ∧ u.params = s.params ∧
    u.integrator = s.integrator ∧ u.base_dt = s.base_dt ∧
    u.dt_max = s.dt_max ∧ u.energy_ref = s.energy_ref ∧
    u.energy_err = s.energy_err ∧ u.energy_accum = s.energy_accum ∧
    u.sim_time = s.sim_time ∧ u.trail_enabled = s.trail_enabled ∧
    u.trail_max_points = s.trail_max_points := by
  unfold SimulationSession.trail_phase SimulationSession.append_trail_point at h
  simp only [apply_ite Except.ok] at h
  repeat' split at h
  all_goals try cases h
  all_goals exact ⟨rfl, rfl, rfl, rfl, rfl, rfl, rfl, rfl, rfl, rfl, rfl, rfl⟩

lemma capture_ref_some {s : SimulationSession} {e0 : ℝ}
    (href : s.energy_ref = some e0) :
    SimulationSession.capture_ref s = s := by
  unfold SimulationSession.capture_ref
  rw [href]
  simp

lemma monitor_phase_switch (t : SimulationSession) (dt e e0 : ℝ)
    (hdamp : pgetD t.params "damping" 0.0 = 0.0)
    (href : t.energy_ref = some e0)
    (hacc : t.energy_check_interval ≤ t.energy_accum + dt)
    (he : total_energy t.state t.params (SimulationSession.energy_mode t) =
      Except.ok e)
    (hsw : t.autoswitch = true) (hint : t.integrator = "symplectic")
    (hdrift : t.energy_threshold < |e - e0| / max (1e-9 : ℝ) |e0|) :
    SimulationSession.monitor_phase t dt = Except.ok { t with
      energy_accum := 0.0
      energy_err := |e - e0| / max (1e-9 : ℝ) |e0|
      integrator := "rk4"
      base_dt := 0.004
      dt_max := 0.015
      energy_ref := some e } := by
  unfold SimulationSession.monitor_phase
  rw [if_pos hdamp, capture_ref_some href, if_pos hacc]
  unfold SimulationSession.run_check
  have hmode : SimulationSession.energy_mode
      { t with energy_accum := 0.0 } = SimulationSession.energy_mode t := rfl
  simp only [hmode]
  rw [show ({ t with energy_accum := 0.0 } : SimulationSession).state =
    t.state from rfl]
  rw [show ({ t with energy_accum := 0.0 } : SimulationSession).params =
    t.params from rfl]
  rw [he]
  simp only [href, Option.getD_some]
  rw [if_pos ⟨hsw, hint, hdrift⟩]

lemma monitor_phase_err_grow (t : SimulationSession) (dt e0 : ℝ) (msg : String)
    (hdamp : pgetD t.params "damping" 0.0 = 0.0)
    (href : t.energy_ref = some e0)
    (hacc : t.energy_check_interval ≤ t.energy_accum + dt)
    (he : total_energy t.state t.params (SimulationSession.energy_mode t) =
      Except.error msg)
    (hthr : 0 ≤ t.energy_threshold) :
    SimulationSession.monitor_phase t dt = Except.ok { t with
      energy_accum := 0.0
      energy_err := 0.0
      dt_max := min (if t.integrator = "rk4" then (0.015 : ℝ) else 0.03)
        (t.dt_max * 1.05) } := by
  unfold SimulationSession.monitor_phase
  rw [if_pos hdamp, capture_ref_some href, if_pos hacc]
  unfold SimulationSession.run_check
  have hmode : SimulationSession.energy_mode
      { t with energy_accum := 0.0 } = SimulationSession.energy_mode t := rfl
  simp only [hmode]
  rw [show ({ t with energy_accum := 0.0 } : SimulationSession).state =
    t.state from rfl]
  rw [show ({ t with energy_accum := 0.0 } : SimulationSession).params =
    t.params from rfl]
  rw [he]
  rw [if_neg (by
    intro hc
    refine absurd hc.2.2 (not_lt.mpr ?_)
    rw [show ((0.0 : ℝ) = 0) from by norm_num]
    exact hthr)]
  rw [if_neg (by
    rw [not_lt, show ((0.0 : ℝ) = 0) from by norm_num]
    nlinarith)]

lemma monitor_phase_err_raise (t : SimulationSession) (dt e0 : ℝ) (msg : String)
    (hdamp : pgetD t.params "damping" 0.0 = 0.0)
    (href : t.energy_ref = some e0)
    (hacc : t.energy_check_interval ≤ t.energy_accum + dt)
    (he : total_energy t.state t.params (SimulationSession.energy_mode t) =
      Except.error msg)
    (hsw : t.autoswitch = true) (hint : t.integrator = "symplectic")
    (hthr : t.energy_threshold < 0) :
    SimulationSession.monitor_phase t dt =
      Except.error "UnboundLocalError" := by
  unfold SimulationSession.monitor_phase
  rw [if_pos hdamp, capture_ref_some href, if_pos hacc]
  unfold SimulationSession.run_check
  have hmode : SimulationSession.energy_mode
      { t with energy_accum := 0.0 } = SimulationSession.energy_mode t := rfl
  simp only [hmode]
  rw [show ({ t with energy_accum := 0.0 } : SimulationSession).state =
    t.state from rfl]
  rw [show ({ t with energy_accum := 0.0 } : SimulationSession).params =
    t.params from rfl]
  rw [he]
  rw [if_pos ⟨hsw, hint, by
    rw [show ((0.0 : ℝ) = 0) from by norm_num]
    exact hthr⟩]

lemma step_preserves_rk4 {s u : SimulationSession} {dt : ℝ}
    (hint : s.integrator = "rk4")
    (h : SimulationSession.step s dt = Except.ok u) :
    u.integrator = "rk4" := by
  unfold SimulationSession.step at h
  split at h
  · cases h
  · simp only [] at h
    split at h
    · cases h
    · rename_i s1 heq st0 hst s2 hmon
      have hm := monitor_phase_fields hmon
      have ht := trail_phase_fields h
      have : s2.integrator = "rk4" := by
        rcases hm.2.2.2.2.2.2.2.2.2.2 with h1 | h1
        · rw [h1]; exact hint
        · exact h1
      rw [ht.2.2.2.1, this]

lemma stepFold_preserves_rk4 {s u : SimulationSession} {dts : List ℝ}
    (hint : s.integrator = "rk4")
    (h : SimulationSession.stepFold s dts = Except.ok u) :
    u.integrator = "rk4" := by
  induction dts generalizing s with
  | nil =>
    unfold SimulationSession.stepFold at h
    simp only [Except.ok.injEq] at h
    rw [← h]; exact hint
  | cons dt rest ih =>
    unfold SimulationSession.stepFold at h
    split at h
    · cases h
    · rename_i s2 hstep
      exact ih (step_preserves_rk4 hint hstep) h


/-! Concrete inputs used by witnesses and counterexamples, and
evaluation lemmas for them. -/


lemma wrap_zero : wrap 0 = 0 := by
  unfold wrap
  have hx : (0:ℝ) + Real.pi = Real.pi := by ring
  have hq : Real.pi / (2.0 * Real.pi) = 1 / 2 := by
    rw [div_eq_iff (by positivity : (2.0:ℝ) * Real.pi ≠ 0)]
    ring
  have hfl : ⌊(1:ℝ)/2⌋ = 0 := by
    rw [Int.floor_eq_zero_iff]
    constructor <;> norm_num
  simp only [hx, hq, hfl]
  norm_num [not_lt.mpr Real.pi_pos.le]

lemma normalize_angles_zeros4 : normalize_angles [0, 0, 0, 0] = [0, 0, 0, 0] := by
  simp [normalize_angles, wrap_zero]

lemma normalize_angles_zeros2 : normalize_angles [0, 0] = [0, 0] := by
  simp [normalize_angles, wrap_zero]

lemma double_deriv_zeros (d : ℝ) :
    double_pendulum_derivatives [0, 0, 0, 0] (paramsD d) =
      Except.ok [0, 0, 0, 0] := by
  simp [double_pendulum_derivatives, pget, paramsD, List.lookup, pgetD]

lemma single_deriv_zeros_noM1 :
    single_pendulum_derivatives [0, 0] paramsNoM1 = Except.ok [0, 0] := by
  simp [single_pendulum_derivatives, pget, paramsNoM1, List.lookup, pgetD]

lemma rk4_step_zeros (dt d : ℝ) :
    rk4_step [0, 0, 0, 0] dt (paramsD d) double_pendulum_derivatives =
      Except.ok [0, 0, 0, 0] := by
  simp [rk4_step, double_deriv_zeros, combineE, rk4Combine]

lemma symplectic_step_zeros4 (dt d : ℝ) :
    symplectic_euler_step [0, 0, 0, 0] dt (paramsD d)
      double_pendulum_derivatives = Except.ok [0, 0, 0, 0] := by
  simp [symplectic_euler_step, double_deriv_zeros, getE]

lemma symplectic_step_zeros2_noM1 (dt : ℝ) :
    symplectic_euler_step [0, 0] dt paramsNoM1
      single_pendulum_derivatives = Except.ok [0, 0] := by
  simp [symplectic_euler_step, single_deriv_zeros_noM1, getE]

lemma choose_dt_max_zeros4 (b m : ℝ) : choose_dt_max [0, 0, 0, 0] b m = m := by
  norm_num [choose_dt_max]

lemma choose_dt_max_zeros2 (b m : ℝ) : choose_dt_max [0, 0] b m = m := by
  norm_num [choose_dt_max]

lemma substep_count_001_0015 : substep_count 0.01 0.015 = 1 := by
  unfold substep_count
  have h1 : |(0.01:ℝ)| / max 1e-9 0.015 = 2/3 := by
    rw [show max (1e-9:ℝ) 0.015 = 0.015 from by norm_num]
    rw [abs_of_pos (by norm_num)]
    norm_num
  rw [h1, show ⌈((2:ℝ)/3)⌉₊ = 1 from by rw [Nat.ceil_eq_iff one_ne_zero]; norm_num]
  exact max_self 1

lemma total_energy_zeros_double (d : ℝ) :
    total_energy [0, 0, 0, 0] (paramsD d) "double" = Except.ok (-2943/100) := by
  simp [total_energy, pget, paramsD, List.lookup]
  norm_num

lemma total_energy_zeros_noM1 :
    total_energy [0, 0] paramsNoM1 "single" =
      Except.error "KeyError: m1" := by
  simp [total_energy, pget, paramsNoM1, List.lookup]

lemma positions_zeros4 (d : ℝ) :
    positions_from_state [0, 0, 0, 0] (paramsD d) =
      Except.ok ((0, 1), (0, 2)) := by
  simp [positions_from_state, pget, pgetD, paramsD, List.lookup]
  norm_num

lemma stepLoop_const {f : List ℝ → Except String (List ℝ)} {z : List ℝ}
    (hf : f z = Except.ok z) : ∀ n, stepLoop f n z = Except.ok z := by
  intro n
  induction n with
  | zero => rfl
  | succ n ih =>
    unfold stepLoop
    rw [hf]
    exact ih

lemma integrate_phase_rk4_zeros4 (s : SimulationSession) (dt d : ℝ)
    (hmode : s.mode = "double") (hint : s.integrator = "rk4")
    (hstate : s.state = [0, 0, 0, 0]) (hparams : s.params = paramsD d) :
    SimulationSession.integrate_phase s dt = Except.ok [0, 0, 0, 0] := by
  unfold SimulationSession.integrate_phase rk4_integrate_substeps
  rw [hmode, hint, hstate, hparams]
  simp only [eq_self_iff_true, if_true]
  apply stepLoop_const
  exact rk4_step_zeros _ d

lemma integrate_phase_sympl_zeros4 (s : SimulationSession) (dt d : ℝ)
    (hmode : s.mode = "double") (hint : s.integrator = "symplectic")
    (hstate : s.state = [0, 0, 0, 0]) (hparams : s.params = paramsD d) :
    SimulationSession.integrate_phase s dt = Except.ok [0, 0, 0, 0] := by
  unfold SimulationSession.integrate_phase
  rw [hmode, hint, hstate, hparams]
  simp only [eq_self_iff_true, if_true]
  rw [if_neg (by decide : ¬ ("symplectic" : String) = "rk4")]
  apply stepLoop_const
  exact symplectic_step_zeros4 _ d

lemma integrate_phase_sympl_zeros2_noM1 (s : SimulationSession) (dt : ℝ)
    (hmode : s.mode = "single") (hint : s.integrator = "symplectic")
    (hstate : s.state = [0, 0]) (hparams : s.params = paramsNoM1) :
    SimulationSession.integrate_phase s dt = Except.ok [0, 0] := by
  unfold SimulationSession.integrate_phase
  rw [hmode, hint, hstate, hparams]
  rw [if_neg (by decide : ¬ ("single" : String) = "double")]
  rw [if_neg (by decide : ¬ ("symplectic" : String) = "rk4")]
  simp only []
  apply stepLoop_const
  exact symplectic_step_zeros2_noM1 _


lemma pgetD_paramsD_damping (d : ℝ) :
    pgetD (paramsD d) "damping" 0.0 = d := by
  simp [pgetD, paramsD, List.lookup]

lemma pgetD_paramsNoM1_damping : pgetD paramsNoM1 "damping" 0.0 = 0.0 := by
  simp [pgetD, paramsNoM1, List.lookup]

lemma step_sessA : SimulationSession.step sessA 0.01 = Except.ok sessA2 := by
  unfold SimulationSession.step
  rw [integrate_phase_rk4_zeros4 sessA 0.01 1.0 rfl rfl rfl rfl]
  simp only [sessA, normalize_angles_zeros4]
  norm_num
  rw [monitor_phase_damped (by rw [pgetD_paramsD_damping]; norm_num)]
  simp only [SimulationSession.trail_phase]
  norm_num [sessA2, sessA]

lemma trail_phase_disabled {s : SimulationSession}
    (h : s.trail_enabled = false) :
    SimulationSession.trail_phase s = Except.ok s := by
  unfold SimulationSession.trail_phase
  rw [h]
  simp


lemma abs_drift_sessB :
    |(-2943/100 : ℝ) - 1| / max (1e-9 : ℝ) |(1 : ℝ)| = 3043/100 := by
  rw [abs_one, show ((-2943/100 : ℝ) - 1) = -(3043/100) from by norm_num,
    abs_neg, abs_of_nonneg (by norm_num : (0:ℝ) ≤ (3043/100 : ℝ))]
  norm_num

lemma step_sessB : SimulationSession.step sessB 0.01 = Except.ok sessB2 := by
  unfold SimulationSession.step
  rw [integrate_phase_sympl_zeros4 sessB 0.01 0.0 rfl rfl rfl rfl]
  simp only []
  rw [if_pos (show sessB.normalize_every_n ≤ sessB.norm_counter + 1 by
    norm_num [sessB])]
  simp only [normalize_angles_zeros4]
  rw [monitor_phase_switch
    ({ sessB with
      state := [0, 0, 0, 0]
      norm_counter := 0
      sim_time := sessB.sim_time + 0.01 }) 0.01 (-2943/100) 1
    (pgetD_paramsD_damping 0.0) rfl
    (by norm_num [sessB])
    (total_energy_zeros_double 0.0) rfl rfl
    (by rw [abs_drift_sessB]; norm_num [sessB])]
  simp only []
  rw [trail_phase_disabled rfl]
  rw [abs_drift_sessB]
  norm_num [sessB, sessB2]


lemma step_sessC8 :
    SimulationSession.step sessC8 0.01 =
      Except.error "UnboundLocalError" := by
  unfold SimulationSession.step
  rw [integrate_phase_sympl_zeros2_noM1 sessC8 0.01 rfl rfl rfl rfl]
  simp only []
  rw [if_pos (show sessC8.normalize_every_n ≤ sessC8.norm_counter + 1 by
    norm_num [sessC8])]
  simp only [normalize_angles_zeros2]
  rw [monitor_phase_err_raise
    ({ sessC8 with
      state := [0, 0]
      norm_counter := 0
      sim_time := sessC8.sim_time + 0.01 }) 0.01 1 "KeyError: m1"
    pgetD_paramsNoM1_damping rfl
    (by norm_num [sessC8])
    total_energy_zeros_noM1 rfl rfl
    (by norm_num [sessC8])]



lemma step_sessC8b :
    SimulationSession.step sessC8b 0.01 = Except.ok sessC8b2 := by
  unfold SimulationSession.step
  rw [integrate_phase_sympl_zeros2_noM1 sessC8b 0.01 rfl rfl rfl rfl]
  simp only []
  rw [if_pos (show sessC8b.normalize_every_n ≤ sessC8b.norm_counter + 1 by
    norm_num [sessC8b, sessC8])]
  simp only [normalize_angles_zeros2]
  rw [monitor_phase_err_grow
    ({ sessC8b with
      state := [0, 0]
      norm_counter := 0
      sim_time := sessC8b.sim_time + 0.01 }) 0.01 1 "KeyError: m1"
    pgetD_paramsNoM1_damping rfl
    (by norm_num [sessC8b, sessC8])
    total_energy_zeros_noM1
    (by norm_num [sessC8b, sessC8])]
  simp only []
  rw [trail_phase_disabled rfl]
  rw [show (if ({ sessC8b with
      state := [0, 0]
      norm_counter := 0
      sim_time := sessC8b.sim_time + 0.01 } :
      SimulationSession).integrator = "rk4" then (0.015 : ℝ) else 0.03) =
    (0.03 : ℝ) from by rw [if_neg (by decide)]]
  norm_num [sessC8b, sessC8, sessC8b2]


lemma step_sessD : SimulationSession.step sessD 0.01 = Except.ok sessD2 := by
  unfold SimulationSession.step
  rw [integrate_phase_rk4_zeros4 sessD 0.01 1.0 rfl rfl rfl rfl]
  simp only []
  rw [if_pos (show sessD.normalize_every_n ≤ sessD.norm_counter + 1 by
    norm_num [sessD])]
  simp only [normalize_angles_zeros4]
  rw [monitor_phase_damped (s := { sessD with
      state := [0, 0, 0, 0]
      norm_counter := 0
      sim_time := sessD.sim_time + 0.01 })
    (by rw [show ({ sessD with
          state := [0, 0, 0, 0]
          norm_counter := 0
          sim_time := sessD.sim_time + 0.01 } :
        SimulationSession).params = paramsD 1.0 from rfl]
        rw [pgetD_paramsD_damping]
        norm_num)]
  simp only []
  unfold SimulationSession.trail_phase SimulationSession.append_trail_point
  rw [show ({ sessD with
      state := [0, 0, 0, 0]
      norm_counter := 0
      sim_time := sessD.sim_time + 0.01 } :
      SimulationSession).state = [0, 0, 0, 0] from rfl]
  rw [show ({ sessD with
      state := [0, 0, 0, 0]
      norm_counter := 0
      sim_time := sessD.sim_time + 0.01 } :
      SimulationSession).params = paramsD 1.0 from rfl]
  rw [positions_zeros4 1.0]
  norm_num [sessD, sessD2]




lemma set_mode_roundtrip_generic (s : SimulationSession) (th w : ℝ)
    (rest : List ℝ) (hm : s.mode = "double")
    (hs : s.state = th :: w :: rest) :
    set_mode_twice s "single" "double" = Except.ok { s with
      mode := "double"
      state := [radians 45.0, 0.0, radians (-30.0), 0.0]
      sim_time := 0.0
      energy_ref := none
      energy_err := 0.0
      energy_accum := 0.0
      trail_points := [] } := by
  have hb1 : (startsWithL (lowerString "single") "single" ||
      startsWithL (lowerString "single") "einfach") = true := by decide
  have hb2 : (startsWithL (lowerString "double") "single" ||
      startsWithL (lowerString "double") "einfach") = false := by decide
  have hsd : (("single" : String) = "double") = False := eq_false (by decide)
  have hds : (("double" : String) = "single") = False := eq_false (by decide)
  have hdd : (("double" : String) = "double") = True := eq_true rfl
  have hss : (("single" : String) = "single") = True := eq_true rfl
  obtain ⟨mo, st, pa, integ, bdt, dmx, tsc, stime, eref, eerr, eint, eacc,
    asw, ethr, nen, ncnt, tren, trmax, trpts⟩ := s
  replace hm : mo = "double" := hm
  replace hs : st = th :: w :: rest := hs
  subst hm
  subst hs
  have hft : ((false : Bool) = true) = False := eq_false (by simp)
  unfold set_mode_twice SimulationSession.set_mode SimulationSession.reset
  simp only [hb1, hb2, hft, hsd, hds, hdd, hss, if_true, if_false,
    eq_self_iff_true]

/-! Claim theorems. -/

/-- C1 (counterexample): the claim "`set_mode(\"single\")` then
`set_mode(\"double\")` preserves the first pendulum's angle exactly" is
false on the code: starting from the double-mode session with first
angle `1`, both calls succeed but the first component of the resulting
state is the canonical initial angle `radians 45°`, not `1`, because
`set_mode` ends with a full `reset()`. -/
theorem C1_counterexample :
    set_mode_twice sessC1 "single" "double" = Except.ok sessC1rt ∧
    sessC1rt.state.getD 0 0 = radians 45.0 ∧
    sessC1.state.getD 0 0 = 1 ∧
    radians 45.0 ≠ (1 : ℝ) := by
  refine ⟨?_, rfl, rfl, ?_⟩
  · rw [set_mode_roundtrip_generic sessC1 1 0 [1/2, 0] rfl rfl]
    rfl
  · unfold radians
    intro h
    nlinarith [Real.pi_lt_d2]

/-- C1 (amended): for every double-mode session whose state has at
least two components, `set_mode("single")` followed by
`set_mode("double")` performs a full reset: the resulting state is the
canonical `[radians 45°, 0, radians (-30°), 0]` (so the first
pendulum's angle is preserved only when it already equals
`radians 45°`), the mode is `"double"`, and the time, energy tracking
and trail are cleared. -/
theorem C1_roundtrip_resets_first_angle (s : SimulationSession) (th w : ℝ)
    (rest : List ℝ) (hm : s.mode = "double")
    (hs : s.state = th :: w :: rest) :
    set_mode_twice s "single" "double" = Except.ok { s with
      mode := "double"
      state := [radians 45.0, 0.0, radians (-30.0), 0.0]
      sim_time := 0.0
      energy_ref := none
      energy_err := 0.0
      energy_accum := 0.0
      trail_points := [] } :=
  set_mode_roundtrip_generic s th w rest hm hs

/-- C1 (witness): the amended round-trip theorem instantiated at the
concrete session `sessC1`. -/
theorem C1_roundtrip_resets_first_angle_witness :
    sessC1.mode = "double" ∧ sessC1.state = 1 :: 0 :: [(1:ℝ)/2, 0] ∧
    set_mode_twice sessC1 "single" "double" = Except.ok { sessC1 with
      mode := "double"
      state := [radians 45.0, 0.0, radians (-30.0), 0.0]
      sim_time := 0.0
      energy_ref := none
      energy_err := 0.0
      energy_accum := 0.0
      trail_points := [] } :=
  ⟨rfl, rfl, C1_roundtrip_resets_first_angle sessC1 1 0 [1/2, 0] rfl rfl⟩

/-- C2 (counterexample): the claim "whenever the damping coefficient
becomes nonzero ... the energy reference is reset (cleared or
recaptured from the current state)" is false on the code: stepping the
session `sessA`, whose damping is `1`, succeeds and leaves the energy
reference at the stale `some 5` — it is neither cleared (`none`) nor
recaptured (the current state's energy is `-29.43 ≠ 5`), because a
nonzero damping merely skips the whole monitoring block. -/
theorem C2_counterexample :
    pgetD sessA.params "damping" 0.0 = 1.0 ∧
    SimulationSession.step sessA 0.01 = Except.ok sessA2 ∧
    sessA2.energy_ref = some 5 ∧
    sessA.energy_ref = some 5 ∧
    (some (5:ℝ) ≠ (none : Option ℝ)) ∧
    total_energy sessA2.state sessA2.params "double" =
      Except.ok (-2943/100) ∧
    (5 : ℝ) ≠ -2943/100 := by
  refine ⟨?_, step_sessA, rfl, rfl, by simp, ?_, by norm_num⟩
  · exact pgetD_paramsD_damping 1.0
  · exact total_energy_zeros_double 1.0

/-- C2 (amended): a `step` taken while the damping coefficient is
nonzero leaves the energy reference untouched (the monitoring block is
skipped entirely); the reference is only cleared by `reset`/`set_mode`
and only recaptured by the autoswitch branch or the first check with
zero damping, so making damping nonzero does not start a new
integration epoch. -/
theorem C2_damped_step_preserves_energy_ref (s u : SimulationSession)
    (dt : ℝ) (hd : ¬ pgetD s.params "damping" 0.0 = 0.0)
    (h : SimulationSession.step s dt = Except.ok u) :
    u.energy_ref = s.energy_ref := by
  unfold SimulationSession.step at h
  split at h
  · cases h
  · simp only [] at h
    split at h
    · cases h
    · rename_i s2 hmon
      rw [monitor_phase_damped (by exact hd)] at hmon
      cases hmon
      have ht := trail_phase_fields h
      rw [ht.2.2.2.2.2.2.1]

/-- C2 (witness): the amended theorem instantiated at the damped
session `sessA`. -/
theorem C2_damped_step_preserves_energy_ref_witness :
    ¬ pgetD sessA.params "damping" 0.0 = 0.0 ∧
    SimulationSession.step sessA 0.01 = Except.ok sessA2 ∧
    sessA2.energy_ref = sessA.energy_ref := by
  have hd : ¬ pgetD sessA.params "damping" 0.0 = 0.0 := by
    rw [show sessA.params = paramsD 1.0 from rfl, pgetD_paramsD_damping]
    norm_num
  exact ⟨hd, step_sessA,
    C2_damped_step_preserves_energy_ref sessA sessA2 0.01 hd step_sessA⟩

/-- C3: while autoswitch is on and the integrator is symplectic, a
step at which the energy check fires with measured drift above
`energy_threshold` switches the integrator to `"rk4"`, resets `base_dt`
and `dt_max` to the RK4 defaults `0.004`/`0.015`, sets the energy
reference to the just-measured energy, and records the drift; and from
then on, any sequence of further successful steps leaves the integrator
at `"rk4"` — `step` never assigns `"symplectic"`. -/
theorem C3_autoswitch_to_rk4_and_absorbing
    (s u : SimulationSession) (dt e e0 : ℝ) (st : List ℝ)
    (hsw : s.autoswitch = true)
    (hint : s.integrator = "symplectic")
    (hdamp : pgetD s.params "damping" 0.0 = 0.0)
    (href : s.energy_ref = some e0)
    (hnorm : s.normalize_every_n ≤ s.norm_counter + 1)
    (hacc : s.energy_check_interval ≤ s.energy_accum + dt)
    (hst : SimulationSession.integrate_phase s dt = Except.ok st)
    (he : total_energy (normalize_angles st) s.params
      (SimulationSession.energy_mode s) = Except.ok e)
    (hdrift : s.energy_threshold < |e - e0| / max (1e-9 : ℝ) |e0|)
    (hstep : SimulationSession.step s dt = Except.ok u) :
    u.integrator = "rk4" ∧ u.base_dt = 0.004 ∧ u.dt_max = 0.015 ∧
    u.energy_ref = some e ∧
    u.energy_err = |e - e0| / max (1e-9 : ℝ) |e0| ∧
    ∀ (dts : List ℝ) (v : SimulationSession),
      SimulationSession.stepFold u dts = Except.ok v →
        v.integrator = "rk4" := by
  unfold SimulationSession.step at hstep
  rw [hst] at hstep
  simp only [] at hstep
  rw [if_pos hnorm] at hstep
  simp only [] at hstep
  rw [monitor_phase_switch
    ({ s with
      state := normalize_angles st
      norm_counter := 0
      sim_time := s.sim_time + dt }) dt e e0
    (by exact hdamp) (by exact href) (by exact hacc) (by exact he)
    (by exact hsw) (by exact hint) (by exact hdrift)] at hstep
  simp only [] at hstep
  have ht := trail_phase_fields hstep
  have h1 : u.integrator = "rk4" := by rw [ht.2.2.2.1]
  refine ⟨h1, ?_, ?_, ?_, ?_, ?_⟩
  · rw [ht.2.2.2.2.1]
  · rw [ht.2.2.2.2.2.1]
  · rw [ht.2.2.2.2.2.2.1]
  · rw [ht.2.2.2.2.2.2.2.1]
  · intro dts v hv
    exact stepFold_preserves_rk4 h1 hv

/-- C3 (witness): the autoswitch theorem applied to the session
`sessB`, whose energy check fires at drift `30.43 > 0.1`. -/
theorem C3_autoswitch_to_rk4_and_absorbing_witness :
    (sessB.autoswitch = true ∧ sessB.integrator = "symplectic" ∧
      pgetD sessB.params "damping" 0.0 = 0.0 ∧
      sessB.energy_ref = some 1 ∧
      sessB.normalize_every_n ≤ sessB.norm_counter + 1 ∧
      sessB.energy_check_interval ≤ sessB.energy_accum + 0.01 ∧
      SimulationSession.integrate_phase sessB 0.01 =
        Except.ok [0, 0, 0, 0] ∧
      total_energy (normalize_angles [0, 0, 0, 0]) sessB.params
        (SimulationSession.energy_mode sessB) = Except.ok (-2943/100) ∧
      sessB.energy_threshold <
        |(-2943/100 : ℝ) - 1| / max (1e-9 : ℝ) |(1 : ℝ)| ∧
      SimulationSession.step sessB 0.01 = Except.ok sessB2) ∧
    sessB2.integrator = "rk4" ∧ sessB2.base_dt = 0.004 ∧
    sessB2.dt_max = 0.015 ∧ sessB2.energy_ref = some (-2943/100) := by
  have hdamp : pgetD sessB.params "damping" 0.0 = 0.0 :=
    pgetD_paramsD_damping 0.0
  have hnorm : sessB.normalize_every_n ≤ sessB.norm_counter + 1 := by
    norm_num [sessB]
  have hacc : sessB.energy_check_interval ≤ sessB.energy_accum + 0.01 := by
    norm_num [sessB]
  have hst : SimulationSession.integrate_phase sessB 0.01 =
      Except.ok [0, 0, 0, 0] :=
    integrate_phase_sympl_zeros4 sessB 0.01 0.0 rfl rfl rfl rfl
  have he : total_energy (normalize_angles [0, 0, 0, 0]) sessB.params
      (SimulationSession.energy_mode sessB) = Except.ok (-2943/100) := by
    rw [normalize_angles_zeros4]
    exact total_energy_zeros_double 0.0
  have hdrift : sessB.energy_threshold <
      |(-2943/100 : ℝ) - 1| / max (1e-9 : ℝ) |(1 : ℝ)| := by
    rw [abs_drift_sessB]
    norm_num [sessB]
  have H := C3_autoswitch_to_rk4_and_absorbing sessB sessB2 0.01
    (-2943/100) 1 [0, 0, 0, 0] rfl rfl hdamp rfl hnorm hacc hst he hdrift
    step_sessB
  exact ⟨⟨rfl, rfl, hdamp, rfl, hnorm, hacc, hst, he, hdrift, step_sessB⟩,
    H.2.2.2.2.2 [] sessB2 rfl, H.2.1, H.2.2.1, H.2.2.2.1⟩

/-- C4: for every state with at least two components, `choose_dt_max`
returns exactly `max_dt` when the maximum angular-velocity magnitude is
at most `0.1`, and otherwise `max 1e-4 (min max_dt (base_dt / (1 + w_max)))`;
and at the defaults `base_dt = 0.005`, `max_dt = 0.02` with
`w_max = 10` the result is strictly below `max_dt` and not below the
`1e-4` floor. -/
theorem C4_choose_dt_max_spec :
    (∀ (state : List ℝ) (base_dt max_dt : ℝ), 2 ≤ state.length →
      ((if 4 ≤ state.length then max |state.getD 1 0| |state.getD 3 0|
          else |state.getD 1 0|) ≤ 0.1 →
        choose_dt_max state base_dt max_dt = max_dt) ∧
      (¬ ((if 4 ≤ state.length then max |state.getD 1 0| |state.getD 3 0|
          else |state.getD 1 0|) ≤ 0.1) →
        choose_dt_max state base_dt max_dt =
          max 1e-4 (min max_dt (base_dt /
            (1 + (if 4 ≤ state.length
              then max |state.getD 1 0| |state.getD 3 0|
              else |state.getD 1 0|)))))) ∧
    choose_dt_max [0, 10] 0.005 0.02 < 0.02 ∧
    (1e-4 : ℝ) ≤ choose_dt_max [0, 10] 0.005 0.02 := by
  refine ⟨?_, ?_, ?_⟩
  · intro state b m h2
    unfold choose_dt_max
    simp only []
    by_cases h4 : 4 ≤ state.length
    · simp only [if_pos h4]
      constructor
      · intro hw
        simp only [if_pos hw]
      · intro hw
        simp only [if_neg hw]
        norm_num
    · simp only [if_neg h4, if_pos (by omega : 1 < state.length)]
      constructor
      · intro hw
        simp only [if_pos hw]
      · intro hw
        simp only [if_neg hw]
        norm_num
  · norm_num [choose_dt_max, List.getD, abs_of_pos]
  · norm_num [choose_dt_max, List.getD, abs_of_pos]

/-- C4 (witness): `choose_dt_max` at the state `[0, 10]` with the
default `base_dt`/`max_dt`, through the general theorem. -/
theorem C4_choose_dt_max_spec_witness :
    (2 ≤ ([0, 10] : List ℝ).length) ∧
    ¬ ((if 4 ≤ ([0, 10] : List ℝ).length
        then max |([0, 10] : List ℝ).getD 1 0| |([0, 10] : List ℝ).getD 3 0|
        else |([0, 10] : List ℝ).getD 1 0|) ≤ 0.1) ∧
    choose_dt_max [0, 10] 0.005 0.02 =
      max 1e-4 (min 0.02 (0.005 /
        (1 + (if 4 ≤ ([0, 10] : List ℝ).length
          then max |([0, 10] : List ℝ).getD 1 0| |([0, 10] : List ℝ).getD 3 0|
          else |([0, 10] : List ℝ).getD 1 0|)))) := by
  have h2 : 2 ≤ ([0, 10] : List ℝ).length := by norm_num
  have hw : ¬ ((if 4 ≤ ([0, 10] : List ℝ).length
      then max |([0, 10] : List ℝ).getD 1 0| |([0, 10] : List ℝ).getD 3 0|
      else |([0, 10] : List ℝ).getD 1 0|) ≤ 0.1) := by
    norm_num [List.getD, abs_of_pos]
  exact ⟨h2, hw, (C4_choose_dt_max_spec.1 [0, 10] 0.005 0.02 h2).2 hw⟩

/-- C5 (counterexample): the claim "for every positive ceiling
`dt_max`, `steps = ceil(|dt_total| / dt_max)`" is false on the code for
`dt_max` below the `1e-9` clamp: at `dt_total = 1`,
`dt_max = 10⁻¹⁰ > 0`, the code computes `10⁹` sub-steps while the
claimed formula gives `10¹⁰`. -/
theorem C5_counterexample :
    substep_count 1 (1/10^10) = 10^9 ∧
    ⌈|(1 : ℝ)| / (1/10^10)⌉₊ = 10^10 ∧
    (10^9 : ℕ) ≠ 10^10 := by
  refine ⟨?_, ?_, by norm_num⟩
  · unfold substep_count
    rw [max_eq_left (by norm_num : (1/10^10 : ℝ) ≤ 1e-9)]
    rw [show |(1 : ℝ)| / (1e-9 : ℝ) = ((10^9 : ℕ) : ℝ) from by
      rw [abs_one]
      push_cast
      norm_num]
    rw [Nat.ceil_natCast]
    norm_num
  · rw [show |(1 : ℝ)| / (1/10^10 : ℝ) = ((10^10 : ℕ) : ℝ) from by
      rw [abs_one]
      push_cast
      norm_num]
    rw [Nat.ceil_natCast]

/-- C5 (amended): for every `dt_max ≥ 1e-9` (the code clamps the
divisor at `1e-9`), the sub-step count is `max 1 ⌈|dt_total| / dt_max⌉₊`
and `rk4_integrate_substeps` applies `rk4_step` sequentially exactly
that many times, with every sub-step of the equal size
`dt_total / steps`. -/
theorem C5_substeps_spec (state : List ℝ) (dt_total dt_max : ℝ)
    (params : Params)
    (deriv : List ℝ → Params → Except String (List ℝ))
    (h : (1e-9 : ℝ) ≤ dt_max) :
    substep_count dt_total dt_max = max 1 ⌈|dt_total| / dt_max⌉₊ ∧
    rk4_integrate_substeps state dt_total dt_max params deriv =
      stepLoop (fun s => rk4_step s
          (dt_total / (substep_count dt_total dt_max : ℝ)) params deriv)
        (substep_count dt_total dt_max) state := by
  constructor
  · unfold substep_count
    rw [max_eq_right h]
  · rfl

/-- C5 (witness): the sub-stepping theorem at `dt_total = 1`,
`dt_max = 0.015`. -/
theorem C5_substeps_spec_witness :
    ((1e-9 : ℝ) ≤ 0.015) ∧
    substep_count 1 0.015 = max 1 ⌈|(1 : ℝ)| / 0.015⌉₊ ∧
    rk4_integrate_substeps [] 1 0.015 (paramsD 0.0)
        double_pendulum_derivatives =
      stepLoop (fun s => rk4_step s (1 / (substep_count 1 0.015 : ℝ))
          (paramsD 0.0) double_pendulum_derivatives)
        (substep_count 1 0.015) [] := by
  have h : (1e-9 : ℝ) ≤ 0.015 := by norm_num
  have H := C5_substeps_spec [] 1 0.015 (paramsD 0.0)
    double_pendulum_derivatives h
  exact ⟨h, H.1, H.2⟩

/-- C6: `symplectic_euler_step` on a length-2 or length-4 state takes
the acceleration(s) from the single derivative evaluation at the input
state, updates each angular velocity first (`w + dt·a`) and then each
angle with the already-updated velocity (`th + dt·(w + dt·a)`) — the
semi-implicit ordering, never the reversed one. -/
theorem C6_symplectic_order :
    (∀ (th w dt : ℝ) (params : Params)
      (deriv : List ℝ → Params → Except String (List ℝ))
      (d : List ℝ) (a : ℝ),
      deriv [th, w] params = Except.ok d → d[1]? = some a →
      symplectic_euler_step [th, w] dt params deriv =
        Except.ok [th + dt * (w + dt * a), w + dt * a]) ∧
    (∀ (th1 w1 th2 w2 dt : ℝ) (params : Params)
      (deriv : List ℝ → Params → Except String (List ℝ))
      (d : List ℝ) (a1 a2 : ℝ),
      deriv [th1, w1, th2, w2] params = Except.ok d →
      d[1]? = some a1 → d[3]? = some a2 →
      symplectic_euler_step [th1, w1, th2, w2] dt params deriv =
        Except.ok [th1 + dt * (w1 + dt * a1), w1 + dt * a1,
          th2 + dt * (w2 + dt * a2), w2 + dt * a2]) := by
  constructor
  · intro th w dt params deriv d a hd h1
    simp [symplectic_euler_step, getE, hd, h1]
  · intro th1 w1 th2 w2 dt params deriv d a1 a2 hd h1 h3
    simp [symplectic_euler_step, getE, hd, h1, h3]

/-- C6 (witness): the ordering theorem applied at the zero state for
both the single- and the double-pendulum derivative functions. -/
theorem C6_symplectic_order_witness :
    (single_pendulum_derivatives [0, 0] paramsNoM1 = Except.ok [0, 0] ∧
      ([0, (0:ℝ)] : List ℝ)[1]? = some 0 ∧
      symplectic_euler_step [0, 0] 1 paramsNoM1
        single_pendulum_derivatives =
        Except.ok [0 + 1 * (0 + 1 * 0), 0 + 1 * 0]) ∧
    (double_pendulum_derivatives [0, 0, 0, 0] (paramsD 0.0) =
        Except.ok [0, 0, 0, 0] ∧
      ([0, 0, 0, (0:ℝ)] : List ℝ)[1]? = some 0 ∧
      ([0, 0, 0, (0:ℝ)] : List ℝ)[3]? = some 0 ∧
      symplectic_euler_step [0, 0, 0, 0] 1 (paramsD 0.0)
        double_pendulum_derivatives =
        Except.ok [0 + 1 * (0 + 1 * 0), 0 + 1 * 0,
          0 + 1 * (0 + 1 * 0), 0 + 1 * 0]) :=
  ⟨⟨single_deriv_zeros_noM1, rfl,
    C6_symplectic_order.1 0 0 1 paramsNoM1 single_pendulum_derivatives
      [0, 0] 0 single_deriv_zeros_noM1 rfl⟩,
  ⟨double_deriv_zeros 0.0, rfl, rfl,
    C6_symplectic_order.2 0 0 0 0 1 (paramsD 0.0)
      double_pendulum_derivatives [0, 0, 0, 0] 0 0
      (double_deriv_zeros 0.0) rfl rfl⟩⟩

/-- C7: after `reset()` the state vector's length matches the mode
(2 for single, 4 for double), the trail is empty, the energy reference
is absent and the recorded drift is zero. -/
theorem C7_reset_spec (s : SimulationSession) :
    ((s.mode = "single" → (SimulationSession.reset s).state.length = 2) ∧
      (s.mode = "double" → (SimulationSession.reset s).state.length = 4)) ∧
    (SimulationSession.reset s).trail_points = [] ∧
    (SimulationSession.reset s).energy_ref = none ∧
    (SimulationSession.reset s).energy_err = 0 := by
  refine ⟨⟨?_, ?_⟩, rfl, rfl, ?_⟩
  · intro h
    unfold SimulationSession.reset
    rw [h, if_neg (by decide : ¬ ("single" : String) = "double")]
    rfl
  · intro h
    unfold SimulationSession.reset
    rw [h, if_pos rfl]
    rfl
  · show (0.0 : ℝ) = 0
    norm_num

/-- C7 (witness): `reset` on the default (double-mode) session. -/
theorem C7_reset_spec_witness :
    sessDefault.mode = "double" ∧
    (SimulationSession.reset sessDefault).state.length = 4 ∧
    (SimulationSession.reset sessDefault).trail_points = [] ∧
    (SimulationSession.reset sessDefault).energy_ref = none ∧
    (SimulationSession.reset sessDefault).energy_err = 0 := by
  have H := C7_reset_spec sessDefault
  exact ⟨rfl, H.1.2 rfl, H.2.1, H.2.2.1, H.2.2.2⟩

/-- C8 (counterexample): the claim "an exception in the energy
computation is caught and the step completes normally" is false as
stated: on `sessC8` (autoswitch on, symplectic, but a negative
`energy_threshold`) the energy computation fails with
`KeyError: m1`, that exception is caught and the drift zeroed, yet the
autoswitch branch then reads the never-assigned local `e` and the step
aborts with `UnboundLocalError`. -/
theorem C8_counterexample :
    total_energy (normalize_angles [0, 0]) sessC8.params
      (SimulationSession.energy_mode sessC8) =
      Except.error "KeyError: m1" ∧
    sessC8.autoswitch = true ∧ sessC8.integrator = "symplectic" ∧
    sessC8.energy_threshold < 0 ∧
    SimulationSession.step sessC8 0.01 =
      Except.error "UnboundLocalError" := by
  refine ⟨?_, rfl, rfl, by norm_num [sessC8], step_sessC8⟩
  rw [normalize_angles_zeros2]
  exact total_energy_zeros_noM1

/-- C8 (amended): when the energy computation fails at a check whose
zeroed drift does not trigger the autoswitch branch — in particular
whenever `energy_threshold` is nonnegative — the exception is caught
inside `step`, the drift is recorded as zero, and the step completes
normally (here with the trail disabled; the integrator selector still
runs and nudges `dt_max` up). -/
theorem C8_energy_failure_swallowed (s : SimulationSession)
    (dt e0 : ℝ) (st : List ℝ) (msg : String)
    (hdamp : pgetD s.params "damping" 0.0 = 0.0)
    (href : s.energy_ref = some e0)
    (hnorm : s.normalize_every_n ≤ s.norm_counter + 1)
    (hacc : s.energy_check_interval ≤ s.energy_accum + dt)
    (hst : SimulationSession.integrate_phase s dt = Except.ok st)
    (he : total_energy (normalize_angles st) s.params
      (SimulationSession.energy_mode s) = Except.error msg)
    (hthr : 0 ≤ s.energy_threshold)
    (htr : s.trail_enabled = false) :
    SimulationSession.step s dt = Except.ok { s with
      state := normalize_angles st
      norm_counter := 0
      sim_time := s.sim_time + dt
      energy_accum := 0.0
      energy_err := 0.0
      dt_max := min (if s.integrator = "rk4" then (0.015 : ℝ) else 0.03)
        (s.dt_max * 1.05) } := by
  unfold SimulationSession.step
  rw [hst]
  simp only []
  rw [if_pos hnorm]
  simp only []
  rw [monitor_phase_err_grow
    ({ s with
      state := normalize_angles st
      norm_counter := 0
      sim_time := s.sim_time + dt }) dt e0 msg
    (by exact hdamp) (by exact href) (by exact hacc) (by exact he)
    (by exact hthr)]
  simp only []
  rw [trail_phase_disabled (by exact htr)]

/-- C8 (witness): the amended theorem at `sessC8b` (the nonnegative
default threshold). -/
theorem C8_energy_failure_swallowed_witness :
    (pgetD sessC8b.params "damping" 0.0 = 0.0 ∧
      sessC8b.energy_ref = some 1 ∧
      sessC8b.normalize_every_n ≤ sessC8b.norm_counter + 1 ∧
      sessC8b.energy_check_interval ≤ sessC8b.energy_accum + 0.01 ∧
      SimulationSession.integrate_phase sessC8b 0.01 =
        Except.ok [0, 0] ∧
      total_energy (normalize_angles [0, 0]) sessC8b.params
        (SimulationSession.energy_mode sessC8b) =
        Except.error "KeyError: m1" ∧
      0 ≤ sessC8b.energy_threshold ∧ sessC8b.trail_enabled = false) ∧
    SimulationSession.step sessC8b 0.01 = Except.ok { sessC8b with
      state := normalize_angles [0, 0]
      norm_counter := 0
      sim_time := sessC8b.sim_time + 0.01
      energy_accum := 0.0
      energy_err := 0.0
      dt_max := min (if sessC8b.integrator = "rk4" then (0.015 : ℝ) else 0.03)
        (sessC8b.dt_max * 1.05) } := by
  have hdamp : pgetD sessC8b.params "damping" 0.0 = 0.0 :=
    pgetD_paramsNoM1_damping
  have hnorm : sessC8b.normalize_every_n ≤ sessC8b.norm_counter + 1 := by
    norm_num [sessC8b, sessC8]
  have hacc : sessC8b.energy_check_interval ≤ sessC8b.energy_accum + 0.01 := by
    norm_num [sessC8b, sessC8]
  have hst : SimulationSession.integrate_phase sessC8b 0.01 =
      Except.ok [0, 0] :=
    integrate_phase_sympl_zeros2_noM1 sessC8b 0.01 rfl rfl rfl rfl
  have he : total_energy (normalize_angles [0, 0]) sessC8b.params
      (SimulationSession.energy_mode sessC8b) =
      Except.error "KeyError: m1" := by
    rw [normalize_angles_zeros2]
    exact total_energy_zeros_noM1
  have hthr : (0 : ℝ) ≤ sessC8b.energy_threshold := by
    norm_num [sessC8b, sessC8]
  exact ⟨⟨hdamp, rfl, hnorm, hacc, hst, he, hthr, rfl⟩,
    C8_energy_failure_swallowed sessC8b 0.01 1 [0, 0] "KeyError: m1"
      hdamp rfl hnorm hacc hst he hthr rfl⟩

lemma append_trail_len_le (s : SimulationSession) (x y : ℝ)
    (h : s.trail_points.length ≤ s.trail_max_points) :
    (s.append_trail_point x y).trail_points.length ≤ s.trail_max_points := by
  unfold SimulationSession.append_trail_point
  by_cases hc : s.trail_max_points < (s.trail_points ++ [(x, y)]).length
  · rw [if_pos hc]
    show ((s.trail_points ++ [(x, y)]).drop 1).length ≤ s.trail_max_points
    simp [List.length_drop, List.length_append] at hc ⊢
    omega
  · rw [if_neg hc]
    show (s.trail_points ++ [(x, y)]).length ≤ s.trail_max_points
    simp [List.length_append] at hc ⊢
    omega

/-- C9: the trail is a bounded FIFO.  `_append_trail_point` appends the
sample at the end, evicts exactly the oldest sample from the front when
the capacity would be exceeded (preserving the order of the rest), and
preserves the at-most-`trail_max_points` invariant; and every
successful `step` keeps the capacity unchanged, leaves the trail alone
when disabled, and preserves the invariant. -/
theorem C9_trail_fifo :
    (∀ (s : SimulationSession) (x y : ℝ),
      (s.trail_points.length ≤ s.trail_max_points →
        (s.append_trail_point x y).trail_points.length ≤
          s.trail_max_points) ∧
      (s.trail_points.length < s.trail_max_points →
        (s.append_trail_point x y).trail_points =
          s.trail_points ++ [(x, y)]) ∧
      (s.trail_points.length = s.trail_max_points →
        (s.append_trail_point x y).trail_points =
          (s.trail_points ++ [(x, y)]).drop 1)) ∧
    (∀ (s u : SimulationSession) (dt : ℝ),
      SimulationSession.step s dt = Except.ok u →
      u.trail_max_points = s.trail_max_points ∧
      (s.trail_enabled = false → u.trail_points = s.trail_points) ∧
      (s.trail_enabled = true → ∃ q : ℝ × ℝ,
        u.trail_points = s.trail_points ++ [q] ∨
        u.trail_points = (s.trail_points ++ [q]).drop 1) ∧
      (s.trail_points.length ≤ s.trail_max_points →
        u.trail_points.length ≤ s.trail_max_points)) := by
  constructor
  · intro s x y
    refine ⟨append_trail_len_le s x y, ?_, ?_⟩
    · intro hlt
      unfold SimulationSession.append_trail_point
      rw [if_neg (by simp [List.length_append]; omega)]
    · intro heq
      unfold SimulationSession.append_trail_point
      rw [if_pos (by simp [List.length_append]; omega)]
  · intro s u dt h
    unfold SimulationSession.step at h
    split at h
    · cases h
    · simp only [] at h
      split at h
      · cases h
      · rename_i s2 hmon
        have hm := monitor_phase_fields hmon
        have hten : s2.trail_enabled = s.trail_enabled := hm.2.2.2.1
        have htp : s2.trail_points = s.trail_points := hm.2.2.2.2.1
        have htm : s2.trail_max_points = s.trail_max_points := hm.2.2.2.2.2.1
        refine ⟨?_, ?_, ?_, ?_⟩
        · have ht := trail_phase_fields h
          rw [ht.2.2.2.2.2.2.2.2.2.2.2, htm]
        · intro hdis
          rw [trail_phase_disabled (by rw [hten]; exact hdis)] at h
          cases h
          exact htp
        · intro hen
          unfold SimulationSession.trail_phase at h
          rw [if_pos (show s2.trail_enabled = true from by
            rw [hten]; exact hen)] at h
          split at h
          · cases h
          · split at h
            · cases h
              rename_i x1 y1 x2 y2 heqp hmode
              refine ⟨(x2, y2), ?_⟩
              unfold SimulationSession.append_trail_point
              by_cases hc : s2.trail_max_points <
                  (s2.trail_points ++ [(x2, y2)]).length
              · right
                rw [if_pos hc]
                show (s2.trail_points ++ [(x2, y2)]).drop 1 =
                  (s.trail_points ++ [(x2, y2)]).drop 1
                rw [htp]
              · left
                rw [if_neg hc]
                show s2.trail_points ++ [(x2, y2)] =
                  s.trail_points ++ [(x2, y2)]
                rw [htp]
            · cases h
              rename_i x1 y1 x2 y2 heqp hmode
              refine ⟨(x1, y1), ?_⟩
              unfold SimulationSession.append_trail_point
              by_cases hc : s2.trail_max_points <
                  (s2.trail_points ++ [(x1, y1)]).length
              · right
                rw [if_pos hc]
                show (s2.trail_points ++ [(x1, y1)]).drop 1 =
                  (s.trail_points ++ [(x1, y1)]).drop 1
                rw [htp]
              · left
                rw [if_neg hc]
                show s2.trail_points ++ [(x1, y1)] =
                  s.trail_points ++ [(x1, y1)]
                rw [htp]
        · intro hlen
          unfold SimulationSession.trail_phase at h
          split at h
          · split at h
            · cases h
            · split at h
              · cases h
                rw [← htm]
                exact append_trail_len_le s2 _ _
                  (by rw [htp, htm]; exact hlen)
              · cases h
                rw [← htm]
                exact append_trail_len_le s2 _ _
                  (by rw [htp, htm]; exact hlen)
          · cases h
            rw [htp]
            exact hlen

/-- C9 (witness): the FIFO theorem at a full one-slot trail (eviction)
and at the stepped session `sessD` (invariant through `step`). -/
theorem C9_trail_fifo_witness :
    (sess9.trail_points.length = sess9.trail_max_points ∧
      (sess9.append_trail_point 1 2).trail_points =
        (sess9.trail_points ++ [(1, 2)]).drop 1) ∧
    SimulationSession.step sessD 0.01 = Except.ok sessD2 ∧
    sessD.trail_points.length ≤ sessD.trail_max_points ∧
    sessD2.trail_points.length ≤ sessD.trail_max_points := by
  refine ⟨⟨rfl, (C9_trail_fifo.1 sess9 1 2).2.2 rfl⟩, step_sessD,
    by norm_num [sessD], ?_⟩
  exact (C9_trail_fifo.2 sessD sessD2 0.01 step_sessD).2.2.2
    (by norm_num [sessD])

/-- C10: in single-pendulum mode (a length-2 state), `get_positions`
returns a second bob position identical to the first: both are
`(l1·sin θ, l1·cos θ)`. -/
theorem C10_single_positions_coincide (s : SimulationSession)
    (th w l1 : ℝ) (hs : s.state = [th, w])
    (hl : pget s.params "l1" = Except.ok l1) :
    SimulationSession.get_positions s = Except.ok
      (l1 * Real.sin th, l1 * Real.cos th,
        l1 * Real.sin th, l1 * Real.cos th) := by
  unfold SimulationSession.get_positions positions_from_state
  rw [hs, hl]

/-- C10 (witness): `get_positions` on a concrete single-mode session
with the default parameters. -/
theorem C10_single_positions_coincide_witness :
    sess10.state = [0, 0] ∧
    pget sess10.params "l1" = Except.ok 1.0 ∧
    SimulationSession.get_positions sess10 = Except.ok
      (1.0 * Real.sin 0, 1.0 * Real.cos 0,
        1.0 * Real.sin 0, 1.0 * Real.cos 0) := by
  have hl : pget sess10.params "l1" = Except.ok 1.0 := by
    simp [sess10, pget, List.lookup]
  exact ⟨rfl, hl, C10_single_positions_coincide sess10 0 0 1.0 rfl hl⟩

end
